import Mathlib

/-!
Shallow embedding of the rcquerybuilder module (src/rcquerybuilder/builder.py):
the fluent MongoDB query builder consisting of the Expr, Builder, Query and
QueryTypes classes.  Python dictionaries are modelled as insertion-ordered
association lists, Python values as the inductive type Val, and Python
exceptions as an explicit error type Err.  Every method returns both its
Python return value and the post-call state of the receiver, so that
behaviour on failure is also captured.
-/

namespace MQB

mutual

/-- Python values appearing in filter and mutation documents: None, booleans,
integers, strings, lists and (insertion-ordered) dictionaries. -/
inductive Val where
  | pynone
  | pybool (b : Bool)
  | pyint (n : Int)
  | pystr (s : String)
  | pylist (xs : ValList)
  | pydoc (d : ValDoc)
deriving Repr, DecidableEq

/-- A Python list of values. -/
inductive ValList where
  | nil
  | cons (v : Val) (rest : ValList)
deriving Repr, DecidableEq

/-- A Python dictionary with string keys, kept in insertion order. -/
inductive ValDoc where
  | nil
  | cons (k : String) (v : Val) (rest : ValDoc)
deriving Repr, DecidableEq

end

/-- Python exceptions raised by the builder code. -/
inductive Err where
  | typeError
  | keyError (k : String)
  | indexError
  | attributeError (attr : String)
  | runtimeError (msg : String)
  | valueError (msg : String)
deriving Repr, DecidableEq

/-- Append an element at the end of a Python list (list.append). -/
def ValList.append (xs : ValList) (v : Val) : ValList :=
  match xs with
  | .nil => .cons v .nil
  | .cons h t => .cons h (t.append v)

/-- Emptiness test for lists. -/
def ValList.isEmpty (xs : ValList) : Bool :=
  match xs with
  | .nil => true
  | .cons _ _ => false

/-- Dictionary lookup (d[k] when present). -/
def ValDoc.get? (d : ValDoc) (k : String) : Option Val :=
  match d with
  | .nil => none
  | .cons k0 v0 rest => if k0 == k then some v0 else rest.get? k

/-- Membership test (k in d). -/
def ValDoc.hasKey (d : ValDoc) (k : String) : Bool :=
  (d.get? k).isSome

/-- Dictionary item assignment (d[k] = v): replaces in place, keeping the
key's original position, or appends a new entry at the end. -/
def ValDoc.set (d : ValDoc) (k : String) (v : Val) : ValDoc :=
  match d with
  | .nil => .cons k v .nil
  | .cons k0 v0 rest => if k0 == k then .cons k v rest else .cons k0 v0 (rest.set k v)

/-- Dictionary setdefault(k, v) restricted to its mutation effect. -/
def ValDoc.setdefault (d : ValDoc) (k : String) (v : Val) : ValDoc :=
  if d.hasKey k then d else d.set k v

/-- Deletion of a key (del d[k]); callers check membership first. -/
def ValDoc.del (d : ValDoc) (k : String) : ValDoc :=
  match d with
  | .nil => .nil
  | .cons k0 v0 rest => if k0 == k then rest else .cons k0 v0 (rest.del k)

/-- Emptiness test for dictionaries. -/
def ValDoc.isEmpty (d : ValDoc) : Bool :=
  match d with
  | .nil => true
  | .cons _ _ _ => false

/-- dict.update(other): assigns every entry of other into d, in order. -/
def ValDoc.update (d other : ValDoc) : ValDoc :=
  match other with
  | .nil => d
  | .cons k v rest => (d.set k v).update rest

/-- The values of a dictionary, in order (dict.values()). -/
def ValDoc.valuesList (d : ValDoc) : ValList :=
  match d with
  | .nil => .nil
  | .cons _ v rest => .cons v rest.valuesList

/-- The keys of a dictionary, in order, as Python strings. -/
def ValDoc.keysList (d : ValDoc) : ValList :=
  match d with
  | .nil => .nil
  | .cons k _ rest => .cons (.pystr k) rest.keysList

/-- Membership of a value in a Python list (elementwise equality). -/
def ValList.containsVal (xs : ValList) (v : Val) : Bool :=
  match xs with
  | .nil => false
  | .cons h t => if h = v then true else t.containsVal v

/-- Python truthiness of a value. -/
def Val.truthy : Val → Bool
  | .pynone => false
  | .pybool b => b
  | .pyint n => decide (n ≠ 0)
  | .pystr s => !(s == "")
  | .pylist xs => !xs.isEmpty
  | .pydoc d => !d.isEmpty

/-- Whether a value is a Python dict (isinstance(v, dict)). -/
def Val.isDoc : Val → Bool
  | .pydoc _ => true
  | _ => false

/-- Kernel-computable lower-casing of a string (str.lower()). -/
def strLower (s : String) : String := ⟨s.data.map Char.toLower⟩

/-- Whether needle occurs as a contiguous substring of hay, as Python's
s1 in s2 test on strings. -/
def charsInfix (needle hay : List Char) : Bool :=
  match hay with
  | [] => needle.isEmpty
  | _ :: t => needle.isPrefixOf hay || charsInfix needle t

/-- String containment test (needle in hay). -/
def strContains (hay needle : String) : Bool := charsInfix needle.data hay.data

/-- Splitting a string on a separator character (str.split of one char). -/
def splitChars (c : Char) : List Char → List Char → List String
  | [], acc => [⟨acc.reverse⟩]
  | x :: xs, acc => if x == c then ⟨acc.reverse⟩ :: splitChars c xs [] else splitChars c xs (x :: acc)

/-- str.split('.') on a string. -/
def splitOnDot (s : String) : List String := splitChars '.' s.data []

/-- Python membership test key in container, raising TypeError on
non-iterable containers: substring test on strings, element test on lists,
key test on dicts. -/
def pyContains (container : Val) (key : String) : Except Err Bool :=
  match container with
  | .pydoc d => .ok (d.hasKey key)
  | .pystr s => .ok (strContains s key)
  | .pylist xs => .ok (xs.containsVal (.pystr key))
  | _ => .error .typeError

/-- Python subscript read container[key] with a string key: KeyError on a
missing dict key, TypeError on every non-dict container. -/
def pyGetItem (container : Val) (key : String) : Except Err Val :=
  match container with
  | .pydoc d =>
    match d.get? key with
    | some v => .ok v
    | none => .error (.keyError key)
  | _ => .error .typeError

/-- Python subscript assignment container[key] = v with a string key:
TypeError on every non-dict container. -/
def pySetItem (container : Val) (key : String) (v : Val) : Except Err Val :=
  match container with
  | .pydoc d => .ok (.pydoc (d.set key v))
  | _ => .error .typeError

/-- The compound statement container.setdefault(k1, {})[k2] = v:
AttributeError if container is not a dict, TypeError if an existing
container[k1] is not a dict. -/
def setdefaultAssign (container : Val) (k1 k2 : String) (v : Val) : Except Err Val :=
  match container with
  | .pydoc d =>
    match d.get? k1 with
    | some (.pydoc inner) => .ok (.pydoc (d.set k1 (.pydoc (inner.set k2 v))))
    | some _ => .error .typeError
    | none => .ok (.pydoc (d.set k1 (.pydoc (.cons k2 v .nil))))
  | _ => .error (.attributeError "setdefault")

/-- The compound statement container.setdefault(k1, {}).setdefault(k2, {})[k3] = v. -/
def setdefaultAssign2 (container : Val) (k1 k2 k3 : String) (v : Val) : Except Err Val :=
  match container with
  | .pydoc d =>
    match d.get? k1 with
    | none => .ok (.pydoc (d.set k1 (.pydoc (.cons k2 (.pydoc (.cons k3 v .nil)) .nil))))
    | some (.pydoc inner) =>
      match inner.get? k2 with
      | none => .ok (.pydoc (d.set k1 (.pydoc (inner.set k2 (.pydoc (.cons k3 v .nil))))))
      | some (.pydoc inner2) => .ok (.pydoc (d.set k1 (.pydoc (inner.set k2 (.pydoc (inner2.set k3 v))))))
      | some _ => .error .typeError
    | some _ => .error (.attributeError "setdefault")
  | _ => .error (.attributeError "setdefault")

/-- The compound statement container.setdefault(k, []).append(item):
AttributeError if container is not a dict or an existing container[k] is
not a list. -/
def listSetdefaultAppend (container : Val) (k : String) (item : Val) : Except Err Val :=
  match container with
  | .pydoc d =>
    match d.get? k with
    | some (.pylist xs) => .ok (.pydoc (d.set k (.pylist (xs.append item))))
    | some _ => .error (.attributeError "append")
    | none => .ok (.pydoc (d.set k (.pylist (.cons item .nil))))
  | _ => .error (.attributeError "setdefault")

/-- The Python return value of a builder method: the receiver itself
(return self) or None (no return statement). -/
inductive PyRet where
  | selfR
  | noneR
deriving Repr, DecidableEq

/-- The state of an Expr instance: the filter document self.query (replaced
wholesale by a bare top-level equals, hence an arbitrary value), the
mutation document self.new_obj, and the current field cursor. -/
structure Expr where
  query : Val
  new_obj : Val
  current_field : Option String
deriving Repr, DecidableEq

instance {ε α : Type} [DecidableEq ε] [DecidableEq α] : DecidableEq (Except ε α) := fun x y =>
  match x, y with
  | .ok a, .ok b =>
    if h : a = b then isTrue (by rw [h]) else isFalse (by intro hh; cases hh; exact h rfl)
  | .error a, .error b =>
    if h : a = b then isTrue (by rw [h]) else isFalse (by intro hh; cases hh; exact h rfl)
  | .ok _, .error _ => isFalse (by intro hh; cases hh)
  | .error _, .ok _ => isFalse (by intro hh; cases hh)

/-- Outcome of one Expr method call: the Python return value (or the
exception raised) together with the state of the receiver afterwards. -/
structure MRes where
  ret : Except Err PyRet
  state : Expr
deriving Repr, DecidableEq

/-- A fresh Expr(): empty filter, empty mutation document, no cursor. -/
def Expr.init : Expr := ⟨.pydoc .nil, .pydoc .nil, none⟩

/-- The current field cursor as the code consumes it: Python tests the
attribute for truthiness, so an empty-string field behaves like an unset
cursor. -/
def Expr.activeField (e : Expr) : Option String :=
  match e.current_field with
  | some f => if f == "" then none else some f
  | none => none

/-- The exception raised by Expr._requires_current_field. -/
def missingFieldError : Err :=
  .runtimeError "This method requires you set a current field using field()."

/-- Packs a state-updating computation into an MRes that returns self,
keeping the pre-call state when an exception is raised before any
mutation. -/
def MRes.ofSelf (e : Expr) (r : Except Err Expr) : MRes :=
  match r with
  | .ok e2 => ⟨.ok .selfR, e2⟩
  | .error er => ⟨.error er, e⟩

/-- Like MRes.ofSelf, for methods with no return statement (Python None). -/
def MRes.ofNone (e : Expr) (r : Except Err Expr) : MRes :=
  match r with
  | .ok e2 => ⟨.ok .noneR, e2⟩
  | .error er => ⟨.error er, e⟩

/-- Chains a further method call on the value returned by a previous call,
as Python attribute access does: calling a method on a None return raises
AttributeError, and an exception stops the chain. -/
def MRes.andCall (r : MRes) (f : Expr → MRes) : MRes :=
  match r.ret with
  | .ok .selfR => f r.state
  | .ok .noneR => ⟨.error (.attributeError "NoneType"), r.state⟩
  | .error er => ⟨.error er, r.state⟩

/-- An argument that may be either a plain value or another Expr instance
(the value_or_expression parameters of the source). -/
inductive Arg where
  | val (v : Val)
  | expr (e : Expr)

/-- The module helper _get_query: extract the filter from an Expr argument,
or use a raw value as given. -/
def getQueryOfArg : Arg → Val
  | .val v => v
  | .expr e => e.query

/-- The first guard of Expr._wrap_equality_criteria: the value of
self.current_field and (self.current_field not in self.query or
not self.query[self.current_field]), with the exceptions Python
membership and subscripting can raise. -/
def wrapSkipGuard (e : Expr) : Except Err Bool :=
  match e.activeField with
  | none => .ok false
  | some f =>
    match pyContains e.query f with
    | .error er => .error er
    | .ok false => .ok true
    | .ok true =>
      match pyGetItem e.query f with
      | .error er => .error er
      | .ok v => .ok (!v.truthy)

/-- The second guard of Expr._wrap_equality_criteria: the value of
isinstance(query, dict) and (not query or query.keys()[0][0] == chr(36));
subscripting the first key of a non-empty dict raises IndexError when that
key is the empty string. -/
def firstKeyIsOperator (q : Val) : Except Err Bool :=
  match q with
  | .pydoc .nil => .ok true
  | .pydoc (.cons k _ _) =>
    match k.data with
    | [] => .error .indexError
    | c :: _ => .ok (c == '$')
  | _ => .ok false

/-- Embeds Expr._wrap_equality_criteria: before an operator is written for
the current field (or at top level), a pre-existing truthy entry that is
not already an operator mapping is replaced by an equality-operator
wrapper around the old value. -/
def Expr.wrap_equality_criteria (e : Expr) : Except Err Expr :=
  match wrapSkipGuard e with
  | .error er => .error er
  | .ok true => .ok e
  | .ok false =>
    match (match e.activeField with
           | some f => pyGetItem e.query f
           | none => .ok e.query) with
    | .error er => .error er
    | .ok q =>
      match firstKeyIsOperator q with
      | .error er => .error er
      | .ok true => .ok e
      | .ok false =>
        match e.activeField with
        | some f =>
          match pySetItem e.query f (.pydoc (.cons "$eq" q .nil)) with
          | .error er => .error er
          | .ok q2 => .ok { e with query := q2 }
        | none => .ok { e with query := .pydoc (.cons "$eq" e.query .nil) }

/-- Embeds Expr.operator: apply equality wrapping, then write
self.query.setdefault(self.current_field, {})[operator] = value when a
current field is set, or self.query[operator] = value at top level. -/
def Expr.operator (e : Expr) (op : String) (value : Val) : MRes :=
  match e.wrap_equality_criteria with
  | .error er => ⟨.error er, e⟩
  | .ok e1 =>
    match e1.activeField with
    | some f =>
      match setdefaultAssign e1.query f op value with
      | .ok q2 => ⟨.ok .selfR, { e1 with query := q2 }⟩
      | .error er => ⟨.error er, e1⟩
    | none =>
      match pySetItem e1.query op value with
      | .ok q2 => ⟨.ok .selfR, { e1 with query := q2 }⟩
      | .error er => ⟨.error er, e1⟩

/-- The shared shape of the mutation operators: Expr._requires_current_field
followed by self.new_obj.setdefault(mutOp, {})[self.current_field] = value. -/
def Expr.newObjOp (e : Expr) (mutOp : String) (value : Val) : Except Err Expr :=
  match e.activeField with
  | none => .error missingFieldError
  | some f =>
    match setdefaultAssign e.new_obj mutOp f value with
    | .ok n2 => .ok { e with new_obj := n2 }
    | .error er => .error er

/-- Embeds Expr.add_and: self.query.setdefault(chr(36) ++ "and", []).append(
_get_query(expression)); returns self. -/
def Expr.add_and (e : Expr) (expression : Arg) : MRes :=
  MRes.ofSelf e ((listSetdefaultAppend e.query "$and" (getQueryOfArg expression)).map
    (fun q2 => { e with query := q2 }))

/-- Embeds Expr.add_many_to_set: requires a current field, then writes the
values under an each marker into the addToSet mutation entry; returns self. -/
def Expr.add_many_to_set (e : Expr) (values : Val) : MRes :=
  MRes.ofSelf e (e.newObjOp "$addToSet" (.pydoc (.cons "$each" values .nil)))

/-- Embeds Expr.add_nor: appends the sub-filter to the nor list; the source
has no return statement, so the call returns None. -/
def Expr.add_nor (e : Expr) (expression : Arg) : MRes :=
  MRes.ofNone e ((listSetdefaultAppend e.query "$nor" (getQueryOfArg expression)).map
    (fun q2 => { e with query := q2 }))

/-- Embeds Expr.add_or: appends the sub-filter to the or list; returns self. -/
def Expr.add_or (e : Expr) (expression : Arg) : MRes :=
  MRes.ofSelf e ((listSetdefaultAppend e.query "$or" (getQueryOfArg expression)).map
    (fun q2 => { e with query := q2 }))

/-- Embeds Expr.add_to_set: requires a current field, then writes the
extracted value into the addToSet mutation entry; the source has no return
statement, so the call returns None. -/
def Expr.add_to_set (e : Expr) (value_or_expression : Arg) : MRes :=
  MRes.ofNone e (e.newObjOp "$addToSet" (getQueryOfArg value_or_expression))

/-- Python list(v): copies a list, iterates a string into its characters
and a dict into its keys; TypeError on non-iterables. -/
def pyListOf (v : Val) : Except Err Val :=
  match v with
  | .pylist xs => .ok (.pylist xs)
  | .pystr s => .ok (.pylist (s.data.foldr (fun c r => ValList.cons (.pystr ⟨[c]⟩) r) .nil))
  | .pydoc d => .ok (.pylist d.keysList)
  | _ => .error .typeError

/-- Embeds Expr.all: self.operator(dollar-all, list(values)). -/
def Expr.all (e : Expr) (values : Val) : MRes :=
  match pyListOf values with
  | .error er => ⟨.error er, e⟩
  | .ok l => e.operator "$all" l

/-- Embeds Expr._bit: requires a current field, then
self.new_obj.setdefault(bit-key, {}).setdefault(field, {})[operator] = value;
returns self. -/
def Expr.bitOp (e : Expr) (op : String) (value : Val) : MRes :=
  MRes.ofSelf e
    (match e.activeField with
     | none => .error missingFieldError
     | some f => (setdefaultAssign2 e.new_obj "$bit" f op value).map
         (fun n2 => { e with new_obj := n2 }))

/-- Embeds Expr.bit_and. -/
def Expr.bit_and (e : Expr) (value : Val) : MRes := e.bitOp "and" value

/-- Embeds Expr.bit_or. -/
def Expr.bit_or (e : Expr) (value : Val) : MRes := e.bitOp "or" value

/-- Embeds Expr.bits_all_clear: requires a current field, then delegates to
operator. -/
def Expr.bits_all_clear (e : Expr) (value : Val) : MRes :=
  match e.activeField with
  | none => ⟨.error missingFieldError, e⟩
  | some _ => e.operator "$bitsAllClear" value

/-- Embeds Expr.bits_all_set: requires a current field, then delegates to
operator. -/
def Expr.bits_all_set (e : Expr) (value : Val) : MRes :=
  match e.activeField with
  | none => ⟨.error missingFieldError, e⟩
  | some _ => e.operator "$bitsAllSet" value

/-- Embeds Expr.case_sensitive: requires a text operator on the filter,
then sets or removes the caseSensitive flag under it; returns self. -/
def Expr.case_sensitive (e : Expr) (case_sensitive : Val) : MRes :=
  match pyContains e.query "$text" with
  | .error er => ⟨.error er, e⟩
  | .ok false =>
    ⟨.error (.runtimeError "This method requires a $text operator (call text() first)"), e⟩
  | .ok true =>
    if case_sensitive.truthy then
      MRes.ofSelf e
        (match pyGetItem e.query "$text" with
         | .error er => .error er
         | .ok t =>
           match pySetItem t "$caseSensitive" (.pybool true) with
           | .error er => .error er
           | .ok t2 => (pySetItem e.query "$text" t2).map (fun q2 => { e with query := q2 }))
    else
      MRes.ofSelf e
        (match pyGetItem e.query "$text" with
         | .error er => .error er
         | .ok t =>
           match pyContains t "$caseSensitive" with
           | .error er => .error er
           | .ok false => .ok e
           | .ok true =>
             match t with
             | .pydoc td => (pySetItem e.query "$text" (.pydoc (td.del "$caseSensitive"))).map
                 (fun q2 => { e with query := q2 })
             | _ => .error .typeError)

/-- Embeds Expr.comment: self.query[comment-key] = comment; returns self. -/
def Expr.comment (e : Expr) (comment : Val) : MRes :=
  MRes.ofSelf e ((pySetItem e.query "$comment" comment).map (fun q2 => { e with query := q2 }))

/-- Embeds Expr.current_date: the kind must be date or timestamp
(ValueError otherwise), then requires a current field and writes
new_obj.setdefault(currentDate-key, {}).setdefault(field, {})[type-key] = kind. -/
def Expr.current_date (e : Expr) (type : Val) : MRes :=
  if !(type = .pystr "date" ∨ type = .pystr "timestamp") then
    ⟨.error (.valueError "Type for current_date operator must be \"date\" or \"timestamp\"."), e⟩
  else
    MRes.ofSelf e
      (match e.activeField with
       | none => .error missingFieldError
       | some f => (setdefaultAssign2 e.new_obj "$currentDate" f "$type" type).map
           (fun n2 => { e with new_obj := n2 }))

/-- Embeds Expr.each. -/
def Expr.each (e : Expr) (values : Val) : MRes := e.operator "$each" values

/-- Embeds Expr.elem_match. -/
def Expr.elem_match (e : Expr) (expression : Arg) : MRes :=
  e.operator "$elemMatch" (getQueryOfArg expression)

/-- Embeds Expr.equals: with a current field, assigns
self.query[field] = value; otherwise rebinds the whole filter to value. -/
def Expr.equals (e : Expr) (value : Val) : MRes :=
  match e.activeField with
  | some f => MRes.ofSelf e ((pySetItem e.query f value).map (fun q2 => { e with query := q2 }))
  | none => ⟨.ok .selfR, { e with query := value }⟩

/-- Embeds Expr.exists: operator with bool(value). -/
def Expr.existsOp (e : Expr) (value : Val) : MRes :=
  e.operator "$exists" (.pybool value.truthy)

/-- Embeds Expr.field: sets the current field cursor to str(field);
returns self. -/
def Expr.field (e : Expr) (field : String) : MRes :=
  ⟨.ok .selfR, { e with current_field := some field }⟩

/-- Embeds Expr.gt. -/
def Expr.gt (e : Expr) (value : Val) : MRes := e.operator "$gt" value

/-- Embeds Expr.gte. -/
def Expr.gte (e : Expr) (value : Val) : MRes := e.operator "$gte" value

/-- Embeds Expr.is_in: a dict argument contributes list(values.values()),
any other argument is passed through unchanged. -/
def Expr.is_in (e : Expr) (values : Val) : MRes :=
  match values with
  | .pydoc d => e.operator "$in" (.pylist d.valuesList)
  | v => e.operator "$in" v

/-- Embeds Expr.inc. -/
def Expr.inc (e : Expr) (value : Val) : MRes := MRes.ofSelf e (e.newObjOp "$inc" value)

/-- Embeds Expr.lt. -/
def Expr.lt (e : Expr) (value : Val) : MRes := e.operator "$lt" value

/-- Embeds Expr.lte. -/
def Expr.lte (e : Expr) (value : Val) : MRes := e.operator "$lte" value

/-- Embeds Expr.max. -/
def Expr.max (e : Expr) (value : Val) : MRes := MRes.ofSelf e (e.newObjOp "$max" value)

/-- Embeds Expr.min. -/
def Expr.min (e : Expr) (value : Val) : MRes := MRes.ofSelf e (e.newObjOp "$min" value)

/-- Embeds Expr.mul. -/
def Expr.mul (e : Expr) (value : Val) : MRes := MRes.ofSelf e (e.newObjOp "$mul" value)

/-- Embeds Expr.is_not. -/
def Expr.is_not (e : Expr) (expression : Arg) : MRes :=
  e.operator "$not" (getQueryOfArg expression)

/-- Embeds Expr.ne. -/
def Expr.ne (e : Expr) (value : Val) : MRes := e.operator "$ne" value

/-- Embeds Expr.not_equals: delegates to ne. -/
def Expr.not_equals (e : Expr) (value : Val) : MRes := e.ne value

/-- Embeds Expr.is_not_in: a dict argument contributes
list(values.values()), any other argument is passed through unchanged. -/
def Expr.is_not_in (e : Expr) (values : Val) : MRes :=
  match values with
  | .pydoc d => e.operator "$nin" (.pylist d.valuesList)
  | v => e.operator "$nin" v

/-- Embeds Expr.pop_first: writes +1 under the pop mutation entry. -/
def Expr.pop_first (e : Expr) : MRes := MRes.ofSelf e (e.newObjOp "$pop" (.pyint 1))

/-- Embeds Expr.pop_last: writes -1 under the pop mutation entry. -/
def Expr.pop_last (e : Expr) : MRes := MRes.ofSelf e (e.newObjOp "$pop" (.pyint (-1)))

/-- Embeds Expr.position. -/
def Expr.position (e : Expr) (position : Val) : MRes := e.operator "$position" position

/-- Embeds Expr.pull. -/
def Expr.pull (e : Expr) (value_or_expression : Arg) : MRes :=
  MRes.ofSelf e (e.newObjOp "$pull" (getQueryOfArg value_or_expression))

/-- Embeds Expr.pull_all. -/
def Expr.pull_all (e : Expr) (values : Val) : MRes :=
  MRes.ofSelf e (e.newObjOp "$pullAll" values)

/-- Embeds Expr.push for an argument that is a distinct object from the
receiver: an Expr argument is replaced by its filter with an each marker
defaulted in (setdefault on a non-dict filter raises AttributeError) - in
the source this setdefault mutates the argument's own live filter dict,
which for a distinct argument leaves the receiver untouched - then the
current field is required and the push mutation entry written.  The call
push(self), whose argument aliases the receiver, is embedded separately as
Expr.push_self. -/
def Expr.push (e : Expr) (value_or_expression : Arg) : MRes :=
  match value_or_expression with
  | .expr ex =>
    match ex.query with
    | .pydoc d =>
      MRes.ofSelf e (e.newObjOp "$push" (.pydoc (d.setdefault "$each" (.pylist .nil))))
    | _ => ⟨.error (.attributeError "setdefault"), e⟩
  | .val v => MRes.ofSelf e (e.newObjOp "$push" v)

/-- Embeds Expr.push called with the receiving Expr itself as its argument
(value_or_expression is self): get_query() returns the receiver's own live
filter dict, so value_or_expression.setdefault(each-marker, []) mutates the
receiver's filter in place before _requires_current_field runs; a failing
cursor check therefore leaves the receiver with the already-mutated
filter.  On success the source stores that same dict object under the push
mutation entry; the pure model stores its current value. -/
def Expr.push_self (e : Expr) : MRes :=
  match e.query with
  | .pydoc d =>
    match e.activeField with
    | none =>
      ⟨.error missingFieldError,
       { e with query := .pydoc (d.setdefault "$each" (.pylist .nil)) }⟩
    | some f =>
      match setdefaultAssign e.new_obj "$push" f (.pydoc (d.setdefault "$each" (.pylist .nil))) with
      | .ok n2 =>
        ⟨.ok .selfR,
         { e with query := .pydoc (d.setdefault "$each" (.pylist .nil)), new_obj := n2 }⟩
      | .error er =>
        ⟨.error er, { e with query := .pydoc (d.setdefault "$each" (.pylist .nil)) }⟩
  | _ => ⟨.error (.attributeError "setdefault"), e⟩

/-- Embeds Expr.push_all. -/
def Expr.push_all (e : Expr) (values : Val) : MRes :=
  MRes.ofSelf e (e.newObjOp "$pushAll" values)

/-- Embeds Expr.range: operator gte on start chained with operator lt on
end. -/
def Expr.range (e : Expr) (start stop : Val) : MRes :=
  (e.operator "$gte" start).andCall (fun e2 => e2.operator "$lt" stop)

/-- Embeds Expr.not_null: not_equals(None). -/
def Expr.not_null (e : Expr) : MRes := e.not_equals .pynone

/-- Embeds Expr.is_null: equals(None). -/
def Expr.is_null (e : Expr) : MRes := e.equals .pynone

/-- Embeds Expr.regex. -/
def Expr.regex (e : Expr) (pattern : Val) : MRes := e.operator "$regex" pattern

/-- Embeds Expr.rename. -/
def Expr.rename (e : Expr) (name : Val) : MRes := MRes.ofSelf e (e.newObjOp "$rename" name)

/-- Writes a value at a dotted path below a container, reproducing the
loop current = current[key] followed by current[last] = value; missing
intermediate keys raise KeyError and non-dict containers TypeError. -/
def setPath (container : Val) : List String → Val → Except Err Val
  | [], _ => .error .typeError
  | [k], v => pySetItem container k v
  | k :: k2 :: rest, v =>
    match pyGetItem container k with
    | .error er => .error er
    | .ok sub =>
      match setPath sub (k2 :: rest) v with
      | .error er => .error er
      | .ok sub2 => pySetItem container k sub2

/-- Embeds Expr.set: requires a current field; atomically it writes under
the set mutation operator, non-atomically it writes the value directly
into the result document, splitting the field on dots to reach a nested
key. -/
def Expr.set (e : Expr) (value : Val) (atomic : Bool) : MRes :=
  match e.activeField with
  | none => ⟨.error missingFieldError, e⟩
  | some f =>
    if atomic then
      MRes.ofSelf e ((setdefaultAssign e.new_obj "$set" f value).map
        (fun n2 => { e with new_obj := n2 }))
    else if !(strContains f ".") then
      MRes.ofSelf e ((pySetItem e.new_obj f value).map (fun n2 => { e with new_obj := n2 }))
    else
      MRes.ofSelf e ((setPath e.new_obj (splitOnDot f) value).map
        (fun n2 => { e with new_obj := n2 }))

/-- Embeds Expr.set_on_insert. -/
def Expr.set_on_insert (e : Expr) (value : Val) : MRes :=
  MRes.ofSelf e (e.newObjOp "$setOnInsert" value)

/-- Embeds Expr.size. -/
def Expr.size (e : Expr) (size : Val) : MRes := e.operator "$size" size

/-- Embeds Expr.slice. -/
def Expr.slice (e : Expr) (slice : Val) : MRes := e.operator "$slice" slice

/-- Python int(v) as used by Expr.sort: integers pass through, booleans
coerce to 0 or 1, everything else raises TypeError (strings were already
normalized by the caller). -/
def pyIntOf (v : Val) : Except Err Int :=
  match v with
  | .pyint n => .ok n
  | .pybool b => .ok (if b then 1 else 0)
  | _ => .error .typeError

/-- The loop of Expr.sort: normalize each order value in iteration order
(an asc string, case-insensitively, becomes +1, any other string -1, other
values go through int()) and assign it into the accumulating mapping. -/
def sortFoldDoc (acc : ValDoc) : ValDoc → Except Err ValDoc
  | .nil => .ok acc
  | .cons k ov rest =>
    match ((match ov with
            | .pystr s => .ok (if strLower s == "asc" then (1 : Int) else -1)
            | v => pyIntOf v) : Except Err Int) with
    | .error er => .error er
    | .ok n => sortFoldDoc (acc.set k (.pyint n)) rest

/-- Embeds Expr.sort: a single field with an order, or a mapping of fields
to orders, normalized and written through operator under the sort key.
The fields argument is the mapping {field_name: order} the source builds
(a plain field name giving the one-entry mapping). -/
def Expr.sort (e : Expr) (fields : ValDoc) : MRes :=
  match sortFoldDoc .nil fields with
  | .error er => ⟨.error er, e⟩
  | .ok sortDoc => e.operator "$sort" (.pydoc sortDoc)

/-- Embeds the type-name lookup table of Expr.is_type. -/
def typeCodeTable : List (String × Int) :=
  [("double", 1), ("string", 2), ("object", 3), ("array", 4), ("binary", 5),
   ("undefined", 6), ("objectid", 7), ("boolean", 8), ("date", 9), ("null", 10),
   ("regex", 11), ("jscode", 13), ("symbol", 14), ("jscodewithscope", 15),
   ("integer32", 16), ("timestamp", 17), ("integer64", 18), ("maxkey", 127),
   ("minkey", 255)]

/-- Embeds Expr.is_type: a string argument is lower-cased and translated
through the lookup table when present there (unknown names pass through
unchanged); any non-string argument is used as the type value directly. -/
def Expr.is_type (e : Expr) (type : Val) : MRes :=
  match type with
  | .pystr s =>
    match typeCodeTable.lookup (strLower s) with
    | some n => e.operator "$type" (.pyint n)
    | none => e.operator "$type" (.pystr (strLower s))
  | v => e.operator "$type" v

/-- Embeds Expr.unset_field: writes 1 under the unset mutation entry. -/
def Expr.unset_field (e : Expr) : MRes := MRes.ofSelf e (e.newObjOp "$unset" (.pyint 1))

/-- Embeds Expr.where: self.query[where-key] = javascript; returns self. -/
def Expr.whereOp (e : Expr) (javascript : Val) : MRes :=
  MRes.ofSelf e ((pySetItem e.query "$where" javascript).map (fun q2 => { e with query := q2 }))

/-- Embeds Expr.get_query: returns the accumulated filter document. -/
def Expr.get_query (e : Expr) : Val := e.query

/-- Embeds the QueryTypes constants. -/
def QueryTypes.TYPE_FIND : String := "find"

def QueryTypes.TYPE_FIND_AND_REMOVE : String := "find_one_and_delete"

def QueryTypes.TYPE_INSERT : String := "insert"

def QueryTypes.TYPE_INSERT_ONE : String := "insert"

def QueryTypes.TYPE_INSERT_MANY : String := "insert_many"

def QueryTypes.TYPE_UPDATE : String := "update_one"

def QueryTypes.TYPE_UPDATE_MANY : String := "update_many"

def QueryTypes.TYPE_REMOVE : String := "remove"

def QueryTypes.TYPE_GROUP : String := "group"

def QueryTypes.TYPE_MAP_REDUCE : String := "map_reduce"

def QueryTypes.TYPE_DISTINCT : String := "distinct"

def QueryTypes.TYPE_COUNT : String := "count"

def QueryTypes.TYPE_AGGREGATE : String := "aggregate"

/-- The state of a Builder instance: its metadata dictionary self.query and
its owned Expr (the backing collection is opaque and not part of the
state). -/
structure Builder where
  query : ValDoc
  expression : Expr
deriving Repr, DecidableEq

/-- The Python return value of a Builder method. -/
inductive BRet where
  | selfB
  | noneB
deriving Repr, DecidableEq

/-- Outcome of one Builder method call. -/
structure BRes where
  ret : Except Err BRet
  state : Builder
deriving Repr, DecidableEq

/-- Builder(collection): query starts as the find type and the owned
expression is fresh. -/
def Builder.init : Builder :=
  ⟨.cons "type" (.pystr QueryTypes.TYPE_FIND) .nil, Expr.init⟩

/-- Chains a further method call on a Builder, as Python attribute access
does on the returned object. -/
def BRes.andCall (r : BRes) (f : Builder → BRes) : BRes :=
  match r.ret with
  | .ok .selfB => f r.state
  | .ok .noneB => ⟨.error (.attributeError "NoneType"), r.state⟩
  | .error er => ⟨.error er, r.state⟩

/-- Embeds Builder.field: delegates to the expression's field, ignoring its
return value; returns self. -/
def Builder.field (b : Builder) (field : String) : BRes :=
  ⟨.ok .selfB, { b with expression := (b.expression.field field).state }⟩

/-- Embeds Builder.find_and_remove. -/
def Builder.find_and_remove (b : Builder) : BRes :=
  ⟨.ok .selfB, { b with query := b.query.set "type" (.pystr QueryTypes.TYPE_FIND_AND_REMOVE) }⟩

/-- Embeds Builder.update: the multi flag selects the update-many type. -/
def Builder.update (b : Builder) (multi : Bool) : BRes :=
  let t : String := if multi then QueryTypes.TYPE_UPDATE_MANY else QueryTypes.TYPE_UPDATE
  ⟨.ok .selfB, { b with query := b.query.set "type" (.pystr t) }⟩

/-- Embeds Builder.set: forces non-atomic placement for insert operations
(the short-circuiting and only reads self.query when atomic is true), then
delegates to the expression's set; returns self. -/
def Builder.set (b : Builder) (value : Val) (atomic : Bool) : BRes :=
  if atomic then
    match b.query.get? "type" with
    | none => ⟨.error (.keyError "type"), b⟩
    | some t =>
      let r := b.expression.set value (!(t == .pystr QueryTypes.TYPE_INSERT))
      match r.ret with
      | .ok _ => ⟨.ok .selfB, { b with expression := r.state }⟩
      | .error er => ⟨.error er, { b with expression := r.state }⟩
  else
    let r := b.expression.set value false
    match r.ret with
    | .ok _ => ⟨.ok .selfB, { b with expression := r.state }⟩
    | .error er => ⟨.error er, { b with expression := r.state }⟩

/-- Embeds the wrapper produced by Builder's dynamic attribute forwarding:
the named Expr method is invoked on the owned expression, its return value
is dropped, and the Builder itself is returned. -/
def Builder.forward (b : Builder) (m : Expr → MRes) : BRes :=
  let r := m b.expression
  match r.ret with
  | .ok _ => ⟨.ok .selfB, { b with expression := r.state }⟩
  | .error er => ⟨.error er, { b with expression := r.state }⟩

/-- A finalized Query: the metadata dictionary captured from the Builder
and the keyword options of get_query. -/
structure Query where
  query : ValDoc
  options : ValDoc
deriving Repr, DecidableEq

/-- Embeds Builder.get_query: stores the expression's filter and mutation
documents under the query and newObj keys and snapshots the result into a
Query; the Builder's own metadata dictionary is mutated in the process. -/
def Builder.get_query (b : Builder) (kwargs : ValDoc) : Query × Builder :=
  let q2 := (b.query.set "query" b.expression.query).set "newObj" b.expression.new_obj
  (⟨q2, kwargs⟩, { b with query := q2 })

/-- The driver operation a Query dispatches, with the arguments passed to
the collection. -/
inductive DriverCall where
  | findCall (filter : Val) (projection : Option Val)
  | insertCall (newObj : Val) (options : ValDoc)
  | updateOneCall (filter newObj : Val)
  | updateManyCall (filter newObj : Val)
  | removeCall (filter : Val) (options : ValDoc)
  | groupCall (keys initial reduceSpec : Val) (options : Val)
deriving Repr, DecidableEq

/-- Embeds Query.execute: dispatch on the operation type; a type matching
no branch falls off the end of the method and returns None (no driver
call, no exception). -/
def Query.execute (q : Query) : Except Err (Option DriverCall) :=
  match q.query.get? "type" with
  | none => .error (.keyError "type")
  | some t =>
    if t == .pystr QueryTypes.TYPE_FIND then
      match q.query.get? "query" with
      | none => .error (.keyError "query")
      | some filt =>
        let sel : Option Val :=
          match q.query.get? "select" with
          | some v => if v.truthy then some v else none
          | none => none
        .ok (some (.findCall filt sel))
    else if t == .pystr QueryTypes.TYPE_INSERT then
      match q.query.get? "newObj" with
      | none => .error (.keyError "newObj")
      | some nobj => .ok (some (.insertCall nobj q.options))
    else if t == .pystr QueryTypes.TYPE_UPDATE then
      let qq := (q.query.setdefault "multiple" (.pybool false)).setdefault "upsert" (.pybool false)
      let opts := q.options
      let opts :=
        match qq.get? "multiple" with
        | some v => if v == Val.pynone then opts else opts.setdefault "multiple" v
        | none => opts
      let opts :=
        match qq.get? "upsert" with
        | some v => if v == Val.pynone then opts else opts.setdefault "upsert" v
        | none => opts
      match opts.get? "multiple" with
      | none => .error (.keyError "multiple")
      | some multi =>
        match qq.get? "query" with
        | none => .error (.keyError "query")
        | some filt =>
          match qq.get? "newObj" with
          | none => .error (.keyError "newObj")
          | some nobj =>
            .ok (some (if multi.truthy then .updateManyCall filt nobj
                       else .updateOneCall filt nobj))
    else if t == .pystr QueryTypes.TYPE_REMOVE then
      match q.query.get? "query" with
      | none => .error (.keyError "query")
      | some filt => .ok (some (.removeCall filt q.options))
    else if t == .pystr QueryTypes.TYPE_GROUP then
      let opts : ValDoc :=
        match q.query.get? "query" with
        | some filt => if filt.truthy then q.options.set "cond" filt else q.options
        | none => q.options
      match q.query.get? "group" with
      | none => .error (.keyError "group")
      | some g =>
        match pyGetItem g "options" with
        | .error er => .error er
        | .ok gopts =>
          match gopts with
          | .pydoc gd =>
            match pyGetItem g "keys" with
            | .error er => .error er
            | .ok keys =>
              match pyGetItem g "initial" with
              | .error er => .error er
              | .ok ini =>
                match pyGetItem g "reduce" with
                | .error er => .error er
                | .ok red => .ok (some (.groupCall keys ini red (.pydoc (gd.update opts))))
          | _ => .error (.attributeError "update")
    else .ok none

/-!
Object-identity model of one build session.  The two mutable document
objects of the Expr (self.query and self.new_obj) live on a small heap and
the attributes hold references to them, because Builder.get_query stores
those same references into the Query metadata and Query.init only
shallow-copies the outer dictionary (self.query = dict(query)).  Item
assignments mutate the referenced object in place; the plain attribute
rebindings of the source (self.query = value in equals, and
self.query = eq-wrapper in the top-level equality wrap) repoint the
attribute at a fresh object and leave the old one untouched.
-/

/-- A build session: the heap of document objects, the Builder metadata
(type and upsert are immutable values), the expression's references into
the heap and its cursor. -/
structure Session where
  heap : List Val
  btype : Val
  bupsert : Option Val
  exprQ : Nat
  exprN : Nat
  curf : Option String
deriving Repr, DecidableEq

/-- A fresh session: Builder(collection) with its fresh Expr; cells 0 and 1
hold the expression's empty filter and mutation documents. -/
def Session.init : Session :=
  ⟨[.pydoc .nil, .pydoc .nil], .pystr QueryTypes.TYPE_FIND, none, 0, 1, none⟩

/-- The pure Expr state a session currently denotes. -/
def Session.exprState (s : Session) : Expr :=
  ⟨s.heap.getD s.exprQ .pynone, s.heap.getD s.exprN .pynone, s.curf⟩

/-- Outcome of a session step. -/
structure SRes where
  ret : Except Err Unit
  state : Session
deriving Repr, DecidableEq

/-- Chains session steps (each public call returns the Builder itself). -/
def SRes.andThen (r : SRes) (f : Session → SRes) : SRes :=
  match r.ret with
  | .ok _ => f r.state
  | .error er => ⟨.error er, r.state⟩

/-- Runs an Expr method that mutates its documents only through item
assignment, writing the results back into the same heap cells. -/
def Session.applyInPlace (s : Session) (m : Expr → MRes) : SRes :=
  let r := m s.exprState
  let h2 := (s.heap.set s.exprQ r.state.query).set s.exprN r.state.new_obj
  ⟨r.ret.map (fun _ => ()), { s with heap := h2, curf := r.state.current_field }⟩

/-- Session step for field (through Builder.field). -/
def Session.fieldS (s : Session) (f : String) : SRes :=
  s.applyInPlace (fun e => e.field f)

/-- Session step for equals: with an active field it is an item assignment
into the existing filter object, without one it rebinds self.query to the
argument, leaving the object the Query captured untouched. -/
def Session.equalsS (s : Session) (value : Val) : SRes :=
  match s.exprState.activeField with
  | some _ => s.applyInPlace (fun e => e.equals value)
  | none => ⟨.ok (), { s with heap := s.heap ++ [value], exprQ := s.heap.length }⟩

/-- Session step for operator-based calls: with an active field every write
is an item assignment into the existing filter object; at top level the
equality wrap rebinds self.query to a fresh eq-wrapper object whenever it
fires. -/
def Session.operatorS (s : Session) (op : String) (value : Val) : SRes :=
  match s.exprState.activeField with
  | some _ => s.applyInPlace (fun e => e.operator op value)
  | none =>
    let e := s.exprState
    let r := e.operator op value
    match r.ret with
    | .error er => ⟨.error er, s⟩
    | .ok _ =>
      match firstKeyIsOperator e.query with
      | .ok true => ⟨.ok (), { s with heap := s.heap.set s.exprQ r.state.query }⟩
      | _ => ⟨.ok (), { s with heap := s.heap ++ [r.state.query], exprQ := s.heap.length }⟩

/-- Session step for gt. -/
def Session.gtS (s : Session) (value : Val) : SRes := s.operatorS "$gt" value

/-- Session step for inc (mutates the mutation document in place). -/
def Session.incS (s : Session) (value : Val) : SRes :=
  s.applyInPlace (fun e => e.inc value)

/-- Session step for Builder.update. -/
def Session.updateS (s : Session) (multi : Bool) : SRes :=
  let t : String := if multi then QueryTypes.TYPE_UPDATE_MANY else QueryTypes.TYPE_UPDATE
  ⟨.ok (), { s with btype := .pystr t }⟩

/-- The Query snapshot of Builder.get_query plus Query.init: the outer
metadata dictionary is shallow-copied (the type string and upsert flag are
immutable values), while the query and newObj entries keep referring to
the expression's live document objects. -/
structure SQuery where
  typeV : Val
  upsertV : Option Val
  queryRef : Nat
  newObjRef : Nat
  options : ValDoc
deriving Repr, DecidableEq

/-- Session step for Builder.get_query(kwargs). -/
def Session.getQueryS (s : Session) (kwargs : ValDoc) : SQuery :=
  ⟨s.btype, s.bupsert, s.exprQ, s.exprN, kwargs⟩

/-- The filter document stored in the Query, as observed through its
reference at a later point of the session. -/
def SQuery.filterNow (q : SQuery) (s : Session) : Val :=
  s.heap.getD q.queryRef .pynone

/-- The mutation document stored in the Query, as observed through its
reference at a later point of the session. -/
def SQuery.mutationNow (q : SQuery) (s : Session) : Val :=
  s.heap.getD q.newObjRef .pynone

/-! Helper lemmas about the dictionary operations and the method shapes. -/

theorem ValDoc.get?_set_self : (d : ValDoc) → (k : String) → (v : Val) →
    (d.set k v).get? k = some v
  | .nil, k, v => by simp [ValDoc.set, ValDoc.get?]
  | .cons k0 v0 rest, k, v => by
    by_cases h : k0 = k
    · simp [ValDoc.set, ValDoc.get?, h]
    · simp [ValDoc.set, ValDoc.get?, h, ValDoc.get?_set_self rest k v]

theorem ValDoc.set_set_self : (d : ValDoc) → (k : String) → (v w : Val) →
    (d.set k v).set k w = d.set k w
  | .nil, k, v, w => by simp [ValDoc.set]
  | .cons k0 v0 rest, k, v, w => by
    by_cases h : k0 = k
    · simp [ValDoc.set, h]
    · simp [ValDoc.set, h, ValDoc.set_set_self rest k v w]

theorem MRes.ofSelf_err (e : Expr) (r : Except Err Expr) (er : Err)
    (h : (MRes.ofSelf e r).ret = .error er) : (MRes.ofSelf e r).state = e := by
  cases r with
  | ok e2 => simp [MRes.ofSelf] at h
  | error er2 => simp [MRes.ofSelf]

theorem MRes.ofNone_err (e : Expr) (r : Except Err Expr) (er : Err)
    (h : (MRes.ofNone e r).ret = .error er) : (MRes.ofNone e r).state = e := by
  cases r with
  | ok e2 => simp [MRes.ofNone] at h
  | error er2 => simp [MRes.ofNone]

theorem Expr.wrap_preserves (e e1 : Expr) (h : e.wrap_equality_criteria = .ok e1) :
    e1.current_field = e.current_field ∧ e1.new_obj = e.new_obj := by
  unfold Expr.wrap_equality_criteria at h
  split at h
  · exact absurd h (by simp)
  · cases h; exact ⟨rfl, rfl⟩
  · split at h
    · exact absurd h (by simp)
    · split at h
      · exact absurd h (by simp)
      · cases h; exact ⟨rfl, rfl⟩
      · split at h
        · split at h
          · exact absurd h (by simp)
          · cases h; exact ⟨rfl, rfl⟩
        · cases h; exact ⟨rfl, rfl⟩

theorem Expr.operator_preserves (e : Expr) (op : String) (value : Val) :
    (e.operator op value).state.current_field = e.current_field ∧
    (e.operator op value).state.new_obj = e.new_obj := by
  unfold Expr.operator
  split
  · exact ⟨rfl, rfl⟩
  · rename_i e1 hw
    have hp := Expr.wrap_preserves e e1 hw
    split
    · split
      · exact ⟨hp.1, hp.2⟩
      · exact ⟨hp.1, hp.2⟩
    · split
      · exact ⟨hp.1, hp.2⟩
      · exact ⟨hp.1, hp.2⟩

/-! Claim C1: the equality-wrapping law. -/

/-- C1 (counterexample): the claim states that any non-empty entry whose
first key does not start with the operator sigil is wrapped into an
equality mapping and merged with the new operator; but for an entry that
is a mapping whose first key is the empty string, the source expression
query.keys()[0][0] raises IndexError, so field(x).equals({"": 1}) followed
by gt(1) raises instead of producing an eq/gt mapping. -/
theorem C1_counterexample :
    ((Expr.init.field "x").andCall (fun e => e.equals (.pydoc (.cons "" (.pyint 1) .nil)))).andCall
      (fun e => e.gt (.pyint 1)) =
    ⟨.error .indexError,
     ⟨.pydoc (.cons "x" (.pydoc (.cons "" (.pyint 1) .nil)) .nil), .pydoc .nil, some "x"⟩⟩ := by
  decide

/-- The general wrapping step shared by the C1 statement: a truthy entry on
which the first-key inspection yields a non-operator verdict is replaced by
an eq-wrapper and the new operator is merged alongside it. -/
theorem wrapMergeStep (e : Expr) (f op : String) (value v : Val) (d : ValDoc)
    (hq : e.query = .pydoc d) (hcf : e.current_field = some f) (hf : f ≠ "")
    (hget : d.get? f = some v) (htr : v.truthy = true)
    (hfk : firstKeyIsOperator v = .ok false) (hop : op ≠ "$eq") :
    e.operator op value =
      ⟨.ok .selfR,
       { e with query := .pydoc (d.set f (.pydoc (.cons "$eq" v (.cons op value .nil)))) }⟩ := by
  have hact : e.activeField = some f := by
    simp [Expr.activeField, hcf, hf]
  have hskip : wrapSkipGuard e = .ok false := by
    simp [wrapSkipGuard, hact, hq, pyContains, ValDoc.hasKey, hget, pyGetItem, htr]
  have hwrap : e.wrap_equality_criteria =
      .ok { e with query := .pydoc (d.set f (.pydoc (.cons "$eq" v .nil))) } := by
    simp [Expr.wrap_equality_criteria, hskip, hact, hq, pyGetItem, hget, hfk, pySetItem]
  have hop2 : ("$eq" == op) = false := by
    simp [Ne.symm hop]
  simp [Expr.operator, hwrap, Expr.activeField, hcf, hf, setdefaultAssign,
    ValDoc.get?_set_self, ValDoc.set_set_self, ValDoc.set, hop2]

/-- C1 (amended): for a field whose existing filter entry is truthy and for
which the first-key inspection succeeds with a non-operator verdict (the
entry is not a mapping, or its first key is non-empty and does not start
with the operator sigil), applying a comparison operator first replaces the
entry by an eq-wrapper around the old value and then merges the new
operator alongside it; in particular field(f).equals(v1) followed by
gt(v2) yields the entry with eq v1 and gt v2. -/
theorem C1_equality_wrapping :
    (∀ (e : Expr) (f op : String) (value v : Val) (d : ValDoc),
      e.query = .pydoc d →
      e.current_field = some f →
      f ≠ "" →
      d.get? f = some v →
      v.truthy = true →
      firstKeyIsOperator v = .ok false →
      op ≠ "$eq" →
      e.operator op value =
        ⟨.ok .selfR,
         { e with query := .pydoc (d.set f (.pydoc (.cons "$eq" v (.cons op value .nil)))) }⟩) ∧
    (∀ (f : String) (v1 v2 : Val),
      f ≠ "" → v1.truthy = true → firstKeyIsOperator v1 = .ok false →
      ((Expr.init.field f).andCall (fun e => e.equals v1)).andCall (fun e => e.gt v2) =
        ⟨.ok .selfR,
         ⟨.pydoc (.cons f (.pydoc (.cons "$eq" v1 (.cons "$gt" v2 .nil))) .nil),
          .pydoc .nil, some f⟩⟩) := by
  constructor
  · exact wrapMergeStep
  · intro f v1 v2 hf htr hfk
    have hf2 : (f == "") = false := by simp [hf]
    have hstep :
        ((Expr.init.field f).andCall (fun e => e.equals v1)) =
        ⟨.ok .selfR, ⟨.pydoc (.cons f v1 .nil), .pydoc .nil, some f⟩⟩ := by
      simp [Expr.field, Expr.init, MRes.andCall, Expr.equals, Expr.activeField, hf2,
        pySetItem, MRes.ofSelf, ValDoc.set, Except.map]
    rw [hstep]
    simp only [MRes.andCall]
    have hget : (ValDoc.cons f v1 .nil).get? f = some v1 := by
      simp [ValDoc.get?]
    have hmain :=
      wrapMergeStep (⟨.pydoc (.cons f v1 .nil), .pydoc .nil, some f⟩ : Expr) f "$gt" v2 v1
        (.cons f v1 .nil) rfl rfl hf hget htr hfk (by decide)
    show (⟨.pydoc (.cons f v1 .nil), .pydoc .nil, some f⟩ : Expr).operator "$gt" v2 = _
    rw [hmain]
    simp [ValDoc.set]

/-- C1 (witness): the wrapping law instantiated at field x, equals 5,
gt 1, giving the eq/gt operator mapping. -/
theorem C1_equality_wrapping_witness :
    ((Expr.init.field "x").andCall (fun e => e.equals (.pyint 5))).andCall
      (fun e => e.gt (.pyint 1)) =
    ⟨.ok .selfR,
     ⟨.pydoc (.cons "x" (.pydoc (.cons "$eq" (.pyint 5) (.cons "$gt" (.pyint 1) .nil))) .nil),
      .pydoc .nil, some "x"⟩⟩ :=
  C1_equality_wrapping.2 "x" (.pyint 5) (.pyint 1) (by decide) (by decide) (by decide)

/-! Claim C6: behaviour on falsy or empty existing entries. -/

/-- C6 (counterexample): the claim states that a comparison operator on a
field previously set to a falsy value such as 0 succeeds and records a
fresh operator mapping; but after field(a).equals(0), gt(1) performs
query.setdefault(a, {})[gt-key] = 1 on the existing integer entry and
raises TypeError instead of succeeding. -/
theorem C6_counterexample :
    ((Expr.init.field "a").andCall (fun e => e.equals (.pyint 0))).andCall
      (fun e => e.gt (.pyint 1)) =
    ⟨.error .typeError, ⟨.pydoc (.cons "a" (.pyint 0) .nil), .pydoc .nil, some "a"⟩⟩ := by
  decide

/-- C6 (amended): when the field has no existing entry or its existing
entry is an empty mapping, a comparison operator succeeds and the entry
becomes a fresh operator mapping, with no equality wrapping; but when the
existing entry is a falsy non-mapping value (None, 0, empty string, empty
list, False), the call raises TypeError: no wrapping is performed and the
operator is not recorded. -/
theorem C6_falsy_entries :
    (∀ (e : Expr) (f op : String) (value : Val) (d : ValDoc),
      e.query = .pydoc d →
      e.current_field = some f →
      f ≠ "" →
      (d.get? f = none ∨ d.get? f = some (.pydoc .nil)) →
      e.operator op value =
        ⟨.ok .selfR, { e with query := .pydoc (d.set f (.pydoc (.cons op value .nil))) }⟩) ∧
    (∀ (e : Expr) (f op : String) (value v : Val) (d : ValDoc),
      e.query = .pydoc d →
      e.current_field = some f →
      f ≠ "" →
      d.get? f = some v →
      v.truthy = false →
      v.isDoc = false →
      e.operator op value = ⟨.error .typeError, e⟩) := by
  constructor
  · intro e f op value d hq hcf hf hget
    have hact : e.activeField = some f := by
      simp [Expr.activeField, hcf, hf]
    rcases hget with h | h
    · have hskip : wrapSkipGuard e = .ok true := by
        simp [wrapSkipGuard, hact, hq, pyContains, ValDoc.hasKey, h]
      have hwrap : e.wrap_equality_criteria = .ok e := by
        simp [Expr.wrap_equality_criteria, hskip]
      simp [Expr.operator, hwrap, hact, setdefaultAssign, hq, h]
    · have hskip : wrapSkipGuard e = .ok true := by
        simp [wrapSkipGuard, hact, hq, pyContains, ValDoc.hasKey, h, pyGetItem, Val.truthy,
          ValDoc.isEmpty]
      have hwrap : e.wrap_equality_criteria = .ok e := by
        simp [Expr.wrap_equality_criteria, hskip]
      simp [Expr.operator, hwrap, hact, setdefaultAssign, hq, h, ValDoc.set]
  · intro e f op value v d hq hcf hf hget htr hdoc
    have hact : e.activeField = some f := by
      simp [Expr.activeField, hcf, hf]
    have hskip : wrapSkipGuard e = .ok true := by
      simp [wrapSkipGuard, hact, hq, pyContains, ValDoc.hasKey, hget, pyGetItem, htr]
    have hwrap : e.wrap_equality_criteria = .ok e := by
      simp [Expr.wrap_equality_criteria, hskip]
    cases v with
    | pydoc dd => simp [Val.isDoc] at hdoc
    | pynone => simp [Expr.operator, hwrap, hact, setdefaultAssign, hq, hget]
    | pybool b => simp [Expr.operator, hwrap, hact, setdefaultAssign, hq, hget]
    | pyint n => simp [Expr.operator, hwrap, hact, setdefaultAssign, hq, hget]
    | pystr s => simp [Expr.operator, hwrap, hact, setdefaultAssign, hq, hget]
    | pylist xs => simp [Expr.operator, hwrap, hact, setdefaultAssign, hq, hget]

/-- C6 (witness): gt on a field with no prior entry records a fresh
operator mapping, and gt on a field previously set to None raises
TypeError. -/
theorem C6_falsy_entries_witness :
    ((⟨.pydoc .nil, .pydoc .nil, some "a"⟩ : Expr).operator "$gt" (.pyint 1) =
      ⟨.ok .selfR, ⟨.pydoc (.cons "a" (.pydoc (.cons "$gt" (.pyint 1) .nil)) .nil),
        .pydoc .nil, some "a"⟩⟩) ∧
    ((⟨.pydoc (.cons "a" .pynone .nil), .pydoc .nil, some "a"⟩ : Expr).operator "$gt" (.pyint 1) =
      ⟨.error .typeError, ⟨.pydoc (.cons "a" .pynone .nil), .pydoc .nil, some "a"⟩⟩) := by
  constructor
  · have h := C6_falsy_entries.1 (⟨.pydoc .nil, .pydoc .nil, some "a"⟩ : Expr) "a" "$gt"
      (.pyint 1) .nil rfl rfl (by decide) (Or.inl rfl)
    rw [h]
    simp [ValDoc.set]
  · have h := C6_falsy_entries.2 (⟨.pydoc (.cons "a" .pynone .nil), .pydoc .nil, some "a"⟩ : Expr)
      "a" "$gt" (.pyint 1) .pynone (.cons "a" .pynone .nil) rfl rfl (by decide) rfl rfl rfl
    rw [h]

/-! Claim C4: field-scoped operators on a fresh Expression. -/

/-- C4 (counterexample): the claim states that every comparison operator
invoked on a fresh Expression with no prior field() call fails with
MissingFieldCursorError; but gt(5) on a fresh Expression succeeds and
writes the operator at the top level of the filter. -/
theorem C4_counterexample :
    Expr.init.gt (.pyint 5) =
    ⟨.ok .selfR, ⟨.pydoc (.cons "$gt" (.pyint 5) .nil), .pydoc .nil, none⟩⟩ := by
  decide

/-- C4 (amended): on a fresh Expression with no prior field() call, every
mutation operator (set, unset, inc, mul, min, max, rename, push, pull,
addToSet, addManyToSet, popFirst, popLast, currentDate, setOnInsert,
pullAll, pushAll, the bit mutations and the bit queries) fails with
MissingFieldCursorError and leaves the state fresh, while every comparison
operator (gt, gte, lt, lte, ne, size, exists, type, regex, in, notIn, all,
elemMatch, range) succeeds, writing its operator at the top level of the
filter instead. -/
theorem C4_fresh_expression :
    (∀ v, Expr.init.gt v =
      ⟨.ok .selfR, ⟨.pydoc (.cons "$gt" v .nil), .pydoc .nil, none⟩⟩) ∧
    (∀ v, Expr.init.gte v =
      ⟨.ok .selfR, ⟨.pydoc (.cons "$gte" v .nil), .pydoc .nil, none⟩⟩) ∧
    (∀ v, Expr.init.lt v =
      ⟨.ok .selfR, ⟨.pydoc (.cons "$lt" v .nil), .pydoc .nil, none⟩⟩) ∧
    (∀ v, Expr.init.lte v =
      ⟨.ok .selfR, ⟨.pydoc (.cons "$lte" v .nil), .pydoc .nil, none⟩⟩) ∧
    (∀ v, Expr.init.ne v =
      ⟨.ok .selfR, ⟨.pydoc (.cons "$ne" v .nil), .pydoc .nil, none⟩⟩) ∧
    (∀ v, Expr.init.size v =
      ⟨.ok .selfR, ⟨.pydoc (.cons "$size" v .nil), .pydoc .nil, none⟩⟩) ∧
    (∀ v, Expr.init.existsOp v =
      ⟨.ok .selfR, ⟨.pydoc (.cons "$exists" (.pybool v.truthy) .nil), .pydoc .nil, none⟩⟩) ∧
    (∀ n : Int, Expr.init.is_type (.pyint n) =
      ⟨.ok .selfR, ⟨.pydoc (.cons "$type" (.pyint n) .nil), .pydoc .nil, none⟩⟩) ∧
    (∀ v, Expr.init.regex v =
      ⟨.ok .selfR, ⟨.pydoc (.cons "$regex" v .nil), .pydoc .nil, none⟩⟩) ∧
    (∀ xs : ValList, Expr.init.is_in (.pylist xs) =
      ⟨.ok .selfR, ⟨.pydoc (.cons "$in" (.pylist xs) .nil), .pydoc .nil, none⟩⟩) ∧
    (∀ xs : ValList, Expr.init.is_not_in (.pylist xs) =
      ⟨.ok .selfR, ⟨.pydoc (.cons "$nin" (.pylist xs) .nil), .pydoc .nil, none⟩⟩) ∧
    (∀ xs : ValList, Expr.init.all (.pylist xs) =
      ⟨.ok .selfR, ⟨.pydoc (.cons "$all" (.pylist xs) .nil), .pydoc .nil, none⟩⟩) ∧
    (∀ v, Expr.init.elem_match (.val v) =
      ⟨.ok .selfR, ⟨.pydoc (.cons "$elemMatch" v .nil), .pydoc .nil, none⟩⟩) ∧
    (∀ a b, Expr.init.range a b =
      ⟨.ok .selfR, ⟨.pydoc (.cons "$gte" a (.cons "$lt" b .nil)), .pydoc .nil, none⟩⟩) ∧
    (∀ v at2, Expr.init.set v at2 = ⟨.error missingFieldError, Expr.init⟩) ∧
    (Expr.init.unset_field = ⟨.error missingFieldError, Expr.init⟩) ∧
    (∀ v, Expr.init.inc v = ⟨.error missingFieldError, Expr.init⟩) ∧
    (∀ v, Expr.init.mul v = ⟨.error missingFieldError, Expr.init⟩) ∧
    (∀ v, Expr.init.min v = ⟨.error missingFieldError, Expr.init⟩) ∧
    (∀ v, Expr.init.max v = ⟨.error missingFieldError, Expr.init⟩) ∧
    (∀ v, Expr.init.rename v = ⟨.error missingFieldError, Expr.init⟩) ∧
    (∀ v, Expr.init.push (.val v) = ⟨.error missingFieldError, Expr.init⟩) ∧
    (∀ v, Expr.init.pull (.val v) = ⟨.error missingFieldError, Expr.init⟩) ∧
    (∀ v, Expr.init.add_to_set (.val v) = ⟨.error missingFieldError, Expr.init⟩) ∧
    (∀ v, Expr.init.add_many_to_set v = ⟨.error missingFieldError, Expr.init⟩) ∧
    (Expr.init.pop_first = ⟨.error missingFieldError, Expr.init⟩) ∧
    (Expr.init.pop_last = ⟨.error missingFieldError, Expr.init⟩) ∧
    (Expr.init.current_date (.pystr "date") = ⟨.error missingFieldError, Expr.init⟩) ∧
    (∀ v, Expr.init.set_on_insert v = ⟨.error missingFieldError, Expr.init⟩) ∧
    (∀ v, Expr.init.pull_all v = ⟨.error missingFieldError, Expr.init⟩) ∧
    (∀ v, Expr.init.push_all v = ⟨.error missingFieldError, Expr.init⟩) ∧
    (∀ v, Expr.init.bit_and v = ⟨.error missingFieldError, Expr.init⟩) ∧
    (∀ v, Expr.init.bit_or v = ⟨.error missingFieldError, Expr.init⟩) ∧
    (∀ v, Expr.init.bits_all_clear v = ⟨.error missingFieldError, Expr.init⟩) ∧
    (∀ v, Expr.init.bits_all_set v = ⟨.error missingFieldError, Expr.init⟩) :=
  ⟨fun _ => rfl, fun _ => rfl, fun _ => rfl, fun _ => rfl, fun _ => rfl, fun _ => rfl,
   fun _ => rfl, fun _ => rfl, fun _ => rfl, fun _ => rfl, fun _ => rfl, fun _ => rfl,
   fun _ => rfl, fun _ _ => rfl, fun _ _ => rfl, rfl, fun _ => rfl, fun _ => rfl,
   fun _ => rfl, fun _ => rfl, fun _ => rfl, fun _ => rfl, fun _ => rfl, fun _ => rfl,
   fun _ => rfl, rfl, rfl, by decide, fun _ => rfl, fun _ => rfl, fun _ => rfl,
   fun _ => rfl, fun _ => rfl, fun _ => rfl, fun _ => rfl⟩

/-! Claim C8: the isType translation table and unknown names. -/

/-- C8 (counterexample): the claim states that every string that is not a
canonical type name makes isType fail with InvalidArgumentError; but
isType passes unrecognized names through unchanged, so
field(a).isType(frobnicate) succeeds and stores the string as the type
value. -/
theorem C8_counterexample :
    (Expr.init.field "a").andCall (fun e => e.is_type (.pystr "frobnicate")) =
    ⟨.ok .selfR,
     ⟨.pydoc (.cons "a" (.pydoc (.cons "$type" (.pystr "frobnicate") .nil)) .nil),
      .pydoc .nil, some "a"⟩⟩ := by
  decide

/-- C8 (amended): every canonical name of the fixed lookup table translates
to its integer code, so isType(name) produces exactly the same call result
as isType(code) on any state; a string outside the table is lower-cased
and passed through unchanged as the type value, with no error raised. -/
theorem C8_is_type_table :
    (∀ e : Expr, e.is_type (.pystr "double") = e.is_type (.pyint 1)) ∧
    (∀ e : Expr, e.is_type (.pystr "string") = e.is_type (.pyint 2)) ∧
    (∀ e : Expr, e.is_type (.pystr "object") = e.is_type (.pyint 3)) ∧
    (∀ e : Expr, e.is_type (.pystr "array") = e.is_type (.pyint 4)) ∧
    (∀ e : Expr, e.is_type (.pystr "binary") = e.is_type (.pyint 5)) ∧
    (∀ e : Expr, e.is_type (.pystr "undefined") = e.is_type (.pyint 6)) ∧
    (∀ e : Expr, e.is_type (.pystr "objectid") = e.is_type (.pyint 7)) ∧
    (∀ e : Expr, e.is_type (.pystr "boolean") = e.is_type (.pyint 8)) ∧
    (∀ e : Expr, e.is_type (.pystr "date") = e.is_type (.pyint 9)) ∧
    (∀ e : Expr, e.is_type (.pystr "null") = e.is_type (.pyint 10)) ∧
    (∀ e : Expr, e.is_type (.pystr "regex") = e.is_type (.pyint 11)) ∧
    (∀ e : Expr, e.is_type (.pystr "jscode") = e.is_type (.pyint 13)) ∧
    (∀ e : Expr, e.is_type (.pystr "symbol") = e.is_type (.pyint 14)) ∧
    (∀ e : Expr, e.is_type (.pystr "jscodewithscope") = e.is_type (.pyint 15)) ∧
    (∀ e : Expr, e.is_type (.pystr "integer32") = e.is_type (.pyint 16)) ∧
    (∀ e : Expr, e.is_type (.pystr "timestamp") = e.is_type (.pyint 17)) ∧
    (∀ e : Expr, e.is_type (.pystr "integer64") = e.is_type (.pyint 18)) ∧
    (∀ e : Expr, e.is_type (.pystr "maxkey") = e.is_type (.pyint 127)) ∧
    (∀ e : Expr, e.is_type (.pystr "minkey") = e.is_type (.pyint 255)) ∧
    (∀ (e : Expr) (s : String), typeCodeTable.lookup (strLower s) = none →
      e.is_type (.pystr s) = e.operator "$type" (.pystr (strLower s))) :=
  ⟨fun _ => rfl, fun _ => rfl, fun _ => rfl, fun _ => rfl, fun _ => rfl, fun _ => rfl,
   fun _ => rfl, fun _ => rfl, fun _ => rfl, fun _ => rfl, fun _ => rfl, fun _ => rfl,
   fun _ => rfl, fun _ => rfl, fun _ => rfl, fun _ => rfl, fun _ => rfl, fun _ => rfl,
   fun _ => rfl, fun e s h => by simp [Expr.is_type, h]⟩

/-- C8 (witness): the passthrough clause applied to the unknown name
frobnicate on a fresh Expression. -/
theorem C8_is_type_table_witness :
    Expr.init.is_type (.pystr "frobnicate") =
      Expr.init.operator "$type" (.pystr (strLower "frobnicate")) :=
  C8_is_type_table.2.2.2.2.2.2.2.2.2.2.2.2.2.2.2.2.2.2.2 Expr.init "frobnicate" (by decide)

/-! Claim C2: dispatch of the update-many operation kind. -/

/-- C2 (code bug): update(multi=True) sets the operation type to the
update-many constant, but Query.execute only compares the type against the
update-one constant (and the other four handled constants), so an
update-many query matches no dispatch branch: execute falls off the end of
the method and returns None without invoking any driver operation, even
though the filter and mutation documents were built exactly as the module
docstring describes.  The docstring promises an update_many(filter,
mutation) driver call for this session. -/
theorem C2_update_many_not_dispatched :
    (let b := (((Builder.init.update true).andCall (fun b => b.field "foo")).andCall
        (fun b => b.forward (fun e => e.equals (.pystr "bar")))).andCall
        (fun b => b.set (.pystr "buzz") true)
     let qb := b.state.get_query ValDoc.nil
     qb.1.query.get? "type" = some (.pystr QueryTypes.TYPE_UPDATE_MANY) ∧
     qb.1.query.get? "query" = some (.pydoc (.cons "foo" (.pystr "bar") .nil)) ∧
     qb.1.query.get? "newObj" =
       some (.pydoc (.cons "$set" (.pydoc (.cons "foo" (.pystr "buzz") .nil)) .nil)) ∧
     qb.1.execute = .ok none) := by
  decide

/-! Claim C5: execute on an unhandled operation kind. -/

/-- C5 (counterexample): the claim states that execute fails with
UnsupportedOperationError on an operation kind outside the dispatch table;
but the source raises nothing for unmatched kinds: a findAndRemove query
executes normally, returning None with no driver call. -/
theorem C5_counterexample :
    ((Builder.init.find_and_remove).state.get_query ValDoc.nil).1.execute = .ok none := by
  decide

/-- C5 (amended): the kinds execute actually handles are find, insert,
update-one, remove and group; for every query whose type is any other
string (updateMany included, as well as findAndUpdate, findAndRemove,
distinct and count), execute performs no driver call and returns None
rather than raising. -/
theorem C5_unhandled_kinds_return_none :
    ∀ (q : Query) (ty : String),
      q.query.get? "type" = some (.pystr ty) →
      ty ∉ ([QueryTypes.TYPE_FIND, QueryTypes.TYPE_INSERT, QueryTypes.TYPE_UPDATE,
             QueryTypes.TYPE_REMOVE, QueryTypes.TYPE_GROUP] : List String) →
      q.execute = .ok none := by
  intro q ty hget hni
  simp only [List.mem_cons, List.not_mem_nil, or_false, not_or] at hni
  obtain ⟨h1, h2, h3, h4, h5⟩ := hni
  simp only [QueryTypes.TYPE_FIND, QueryTypes.TYPE_INSERT, QueryTypes.TYPE_UPDATE,
    QueryTypes.TYPE_REMOVE, QueryTypes.TYPE_GROUP] at h1 h2 h3 h4 h5
  simp [Query.execute, hget, QueryTypes.TYPE_FIND, QueryTypes.TYPE_INSERT,
    QueryTypes.TYPE_UPDATE, QueryTypes.TYPE_REMOVE, QueryTypes.TYPE_GROUP,
    h1, h2, h3, h4, h5]

/-- C5 (witness): a distinct query returns None from execute. -/
theorem C5_unhandled_kinds_witness :
    (Query.mk (.cons "type" (.pystr "distinct") .nil) .nil).execute = .ok none :=
  C5_unhandled_kinds_return_none (Query.mk (.cons "type" (.pystr "distinct") .nil) .nil)
    "distinct" rfl (by decide)

/-! Claim C3: the Query snapshot and later Builder/Expression mutation. -/

theorem heapGetDSetPair (h : List Val) (i j : Nat) (x y : Val)
    (hij : i ≠ j) (hi : i < h.length) :
    ((h.set i x).set j y).getD i .pynone = x := by
  rw [List.getD_eq_getElem?_getD, List.getElem?_set_ne (Ne.symm hij),
    List.getElem?_set_eq_of_lt x hi]
  rfl

/-- C3 (counterexample): the claim states that mutating the Builder or
Expression after get_query leaves the Query's stored filter unchanged; but
Query.init only shallow-copies the outer metadata dictionary, so the
stored filter is the very object the Expression keeps mutating: after
field(a).equals(1), get_query, field(b).equals(2), the Query's stored
filter has gained the b entry. -/
theorem C3_counterexample :
    (let s1 := ((Session.init.fieldS "a").andThen (fun s => s.equalsS (.pyint 1))).state
     let q := s1.getQueryS ValDoc.nil
     let s2 := ((s1.fieldS "b").andThen (fun s => s.equalsS (.pyint 2))).state
     q.filterNow s1 = .pydoc (.cons "a" (.pyint 1) .nil) ∧
     q.filterNow s2 = .pydoc (.cons "a" (.pyint 1) (.cons "b" (.pyint 2) .nil)) ∧
     ¬ q.filterNow s2 = q.filterNow s1) := by
  decide

/-- C3 (amended): the Query's operation kind and options are plain values
fixed at get_query time, but the stored filter document is shared with the
Expression: a later field(f).equals(v) on the session is an item
assignment into the very object the Query references, so the Query's
stored filter becomes the updated document (it remains identical to the
Expression's current filter). -/
theorem C3_query_shares_documents :
    ∀ (s : Session) (kwargs : ValDoc) (f : String) (v : Val) (d : ValDoc),
      s.heap.getD s.exprQ .pynone = .pydoc d →
      f ≠ "" → s.exprQ < s.heap.length → s.exprQ ≠ s.exprN →
      ((s.fieldS f).andThen (fun s1 => s1.equalsS v)).ret = .ok () ∧
      (s.getQueryS kwargs).typeV = s.btype ∧
      (s.getQueryS kwargs).options = kwargs ∧
      (s.getQueryS kwargs).filterNow ((s.fieldS f).andThen (fun s1 => s1.equalsS v)).state =
        .pydoc (d.set f v) ∧
      (s.getQueryS kwargs).filterNow ((s.fieldS f).andThen (fun s1 => s1.equalsS v)).state =
        ((s.fieldS f).andThen (fun s1 => s1.equalsS v)).state.exprState.query := by
  intro s kwargs f v d hq hf hlt hne
  have hf2 : (f == "") = false := by simp [hf]
  have hq0 : s.heap[s.exprQ]?.getD Val.pynone = Val.pydoc d := by
    simpa [List.getD_eq_getElem?_getD] using hq
  have hfield : s.fieldS f =
      ⟨.ok (), { s with
        heap := (s.heap.set s.exprQ (.pydoc d)).set s.exprN (s.heap[s.exprN]?.getD Val.pynone),
        curf := some f }⟩ := by
    simp [Session.fieldS, Session.applyInPlace, Session.exprState, Expr.field, hq0, Except.map]
  have hq1 :
      ((s.heap.set s.exprQ (.pydoc d)).set s.exprN
        (s.heap[s.exprN]?.getD Val.pynone))[s.exprQ]?.getD Val.pynone = .pydoc d := by
    simpa [List.getD_eq_getElem?_getD] using
      heapGetDSetPair s.heap s.exprQ s.exprN (.pydoc d) (s.heap[s.exprN]?.getD Val.pynone) hne hlt
  have hlen1 :
      ((s.heap.set s.exprQ (.pydoc d)).set s.exprN
        (s.heap[s.exprN]?.getD Val.pynone)).length = s.heap.length := by
    simp
  have hequals :
      ({ s with
          heap := (s.heap.set s.exprQ (.pydoc d)).set s.exprN (s.heap[s.exprN]?.getD Val.pynone),
          curf := some f } : Session).equalsS v =
      ⟨.ok (), { s with
          heap := ((((s.heap.set s.exprQ (.pydoc d)).set s.exprN
              (s.heap[s.exprN]?.getD Val.pynone)).set s.exprQ (.pydoc (d.set f v))).set s.exprN
              (((s.heap.set s.exprQ (.pydoc d)).set s.exprN
                (s.heap[s.exprN]?.getD Val.pynone))[s.exprN]?.getD Val.pynone)),
          curf := some f }⟩ := by
    simp [Session.equalsS, Session.exprState, Expr.activeField, hf2, hq1,
      Session.applyInPlace, Expr.equals, pySetItem, MRes.ofSelf, Except.map]
  have hq2 :
      ((((s.heap.set s.exprQ (.pydoc d)).set s.exprN
          (s.heap[s.exprN]?.getD Val.pynone)).set s.exprQ (.pydoc (d.set f v))).set s.exprN
          (((s.heap.set s.exprQ (.pydoc d)).set s.exprN
            (s.heap[s.exprN]?.getD Val.pynone))[s.exprN]?.getD Val.pynone))[s.exprQ]?.getD
          Val.pynone =
        .pydoc (d.set f v) := by
    simpa [List.getD_eq_getElem?_getD] using
      heapGetDSetPair _ s.exprQ s.exprN (.pydoc (d.set f v)) _ hne (by rw [hlen1]; exact hlt)
  refine ⟨?_, rfl, rfl, ?_, ?_⟩
  · rw [hfield]
    simp only [SRes.andThen]
    rw [hequals]
  · rw [hfield]
    simp only [SRes.andThen]
    rw [hequals]
    simp only [Session.getQueryS, SQuery.filterNow, List.getD_eq_getElem?_getD]
    exact hq2
  · rw [hfield]
    simp only [SRes.andThen]
    rw [hequals]
    simp only [Session.getQueryS, SQuery.filterNow, Session.exprState,
      List.getD_eq_getElem?_getD]

/-- C3 (witness): the sharing law applied to a session holding the filter
with entry a = 1: after a later field(b).equals(2) the Query observes the
two-entry document. -/
theorem C3_query_shares_documents_witness :
    (let s1 := ((Session.init.fieldS "a").andThen (fun s => s.equalsS (.pyint 1))).state
     (s1.getQueryS ValDoc.nil).filterNow
        ((s1.fieldS "b").andThen (fun s2 => s2.equalsS (.pyint 2))).state =
      .pydoc ((ValDoc.cons "a" (.pyint 1) .nil).set "b" (.pyint 2))) :=
  (C3_query_shares_documents
    ((Session.init.fieldS "a").andThen (fun s => s.equalsS (.pyint 1))).state
    ValDoc.nil "b" (.pyint 2) (.cons "a" (.pyint 1) .nil)
    (by decide) (by decide) (by decide) (by decide)).2.2.2.1

/-! Claim C7: fluent methods return the receiver. -/

theorem ofSelf_state_cf (e : Expr) (r : Except Err Expr)
    (h : ∀ e2, r = .ok e2 → e2.current_field = e.current_field) :
    (MRes.ofSelf e r).state.current_field = e.current_field := by
  cases r with
  | ok e2 => exact h e2 rfl
  | error er => rfl

theorem ofNone_state_cf (e : Expr) (r : Except Err Expr)
    (h : ∀ e2, r = .ok e2 → e2.current_field = e.current_field) :
    (MRes.ofNone e r).state.current_field = e.current_field := by
  cases r with
  | ok e2 => exact h e2 rfl
  | error er => rfl

theorem newObjOp_cf (e : Expr) (m : String) (v : Val) :
    ∀ e2, e.newObjOp m v = .ok e2 → e2.current_field = e.current_field := by
  intro e2 h
  unfold Expr.newObjOp at h
  split at h
  · exact absurd h (by simp)
  · split at h
    · cases h; rfl
    · exact absurd h (by simp)

theorem mapQuery_cf (e : Expr) (res : Except Err Val) :
    ∀ e2, res.map (fun q2 => { e with query := q2 }) = .ok e2 →
      e2.current_field = e.current_field := by
  intro e2 h
  cases res with
  | ok q2 => simp [Except.map] at h; rw [← h]
  | error er => simp [Except.map] at h

theorem mapNewObj_cf (e : Expr) (res : Except Err Val) :
    ∀ e2, res.map (fun n2 => { e with new_obj := n2 }) = .ok e2 →
      e2.current_field = e.current_field := by
  intro e2 h
  cases res with
  | ok n2 => simp [Except.map] at h; rw [← h]
  | error er => simp [Except.map] at h

theorem andCall_cf (e : Expr) (r : MRes) (f : Expr → MRes)
    (hr : r.state.current_field = e.current_field)
    (hf : ∀ e2, (f e2).state.current_field = e2.current_field) :
    (r.andCall f).state.current_field = e.current_field := by
  unfold MRes.andCall
  split
  · rw [hf r.state]; exact hr
  · exact hr
  · exact hr

/-- C9 (confirmed): no Expression operation other than field() changes the
current-field cursor, whether it succeeds or raises; field(name) sets the
cursor to the given name, so chained operators without an intervening
field() call all apply to the same field. -/
theorem C9_cursor_invariance :
    (∀ e (a : Arg), (Expr.add_and e a).state.current_field = e.current_field) ∧
    (∀ e v, (Expr.add_many_to_set e v).state.current_field = e.current_field) ∧
    (∀ e (a : Arg), (Expr.add_nor e a).state.current_field = e.current_field) ∧
    (∀ e (a : Arg), (Expr.add_or e a).state.current_field = e.current_field) ∧
    (∀ e (a : Arg), (Expr.add_to_set e a).state.current_field = e.current_field) ∧
    (∀ e v, (Expr.all e v).state.current_field = e.current_field) ∧
    (∀ e op v, (Expr.operator e op v).state.current_field = e.current_field) ∧
    (∀ e v, (Expr.bit_and e v).state.current_field = e.current_field) ∧
    (∀ e v, (Expr.bit_or e v).state.current_field = e.current_field) ∧
    (∀ e v, (Expr.bits_all_clear e v).state.current_field = e.current_field) ∧
    (∀ e v, (Expr.bits_all_set e v).state.current_field = e.current_field) ∧
    (∀ e v, (Expr.case_sensitive e v).state.current_field = e.current_field) ∧
    (∀ e v, (Expr.comment e v).state.current_field = e.current_field) ∧
    (∀ e v, (Expr.current_date e v).state.current_field = e.current_field) ∧
    (∀ e v, (Expr.each e v).state.current_field = e.current_field) ∧
    (∀ e (a : Arg), (Expr.elem_match e a).state.current_field = e.current_field) ∧
    (∀ e v, (Expr.equals e v).state.current_field = e.current_field) ∧
    (∀ e v, (Expr.existsOp e v).state.current_field = e.current_field) ∧
    (∀ e v, (Expr.gt e v).state.current_field = e.current_field) ∧
    (∀ e v, (Expr.gte e v).state.current_field = e.current_field) ∧
    (∀ e v, (Expr.is_in e v).state.current_field = e.current_field) ∧
    (∀ e v, (Expr.inc e v).state.current_field = e.current_field) ∧
    (∀ e v, (Expr.lt e v).state.current_field = e.current_field) ∧
    (∀ e v, (Expr.lte e v).state.current_field = e.current_field) ∧
    (∀ e v, (Expr.max e v).state.current_field = e.current_field) ∧
    (∀ e v, (Expr.min e v).state.current_field = e.current_field) ∧
    (∀ e v, (Expr.mul e v).state.current_field = e.current_field) ∧
    (∀ e (a : Arg), (Expr.is_not e a).state.current_field = e.current_field) ∧
    (∀ e v, (Expr.ne e v).state.current_field = e.current_field) ∧
    (∀ e v, (Expr.not_equals e v).state.current_field = e.current_field) ∧
    (∀ e v, (Expr.is_not_in e v).state.current_field = e.current_field) ∧
    (∀ e, (Expr.pop_first e).state.current_field = e.current_field) ∧
    (∀ e, (Expr.pop_last e).state.current_field = e.current_field) ∧
    (∀ e v, (Expr.position e v).state.current_field = e.current_field) ∧
    (∀ e (a : Arg), (Expr.pull e a).state.current_field = e.current_field) ∧
    (∀ e v, (Expr.pull_all e v).state.current_field = e.current_field) ∧
    (∀ e (a : Arg), (Expr.push e a).state.current_field = e.current_field) ∧
    (∀ e v, (Expr.push_all e v).state.current_field = e.current_field) ∧
    (∀ e a b, (Expr.range e a b).state.current_field = e.current_field) ∧
    (∀ e, (Expr.not_null e).state.current_field = e.current_field) ∧
    (∀ e, (Expr.is_null e).state.current_field = e.current_field) ∧
    (∀ e v, (Expr.regex e v).state.current_field = e.current_field) ∧
    (∀ e v, (Expr.rename e v).state.current_field = e.current_field) ∧
    (∀ e v at2, (Expr.set e v at2).state.current_field = e.current_field) ∧
    (∀ e v, (Expr.set_on_insert e v).state.current_field = e.current_field) ∧
    (∀ e v, (Expr.size e v).state.current_field = e.current_field) ∧
    (∀ e v, (Expr.slice e v).state.current_field = e.current_field) ∧
    (∀ e fs, (Expr.sort e fs).state.current_field = e.current_field) ∧
    (∀ e v, (Expr.is_type e v).state.current_field = e.current_field) ∧
    (∀ e, (Expr.unset_field e).state.current_field = e.current_field) ∧
    (∀ e v, (Expr.whereOp e v).state.current_field = e.current_field) ∧
    (∀ e f, (Expr.field e f).state.current_field = some f ∧
      (Expr.field e f).ret = .ok .selfR) := by
  have hop : ∀ e op v, (Expr.operator e op v).state.current_field = e.current_field :=
    fun e op v => (Expr.operator_preserves e op v).1
  have hno : ∀ e m v, (MRes.ofSelf e (e.newObjOp m v)).state.current_field = e.current_field :=
    fun e m v => ofSelf_state_cf e _ (newObjOp_cf e m v)
  refine ⟨?_, ?_, ?_, ?_, ?_, ?_, ?_, ?_, ?_, ?_, ?_, ?_, ?_, ?_, ?_, ?_, ?_, ?_, ?_, ?_,
    ?_, ?_, ?_, ?_, ?_, ?_, ?_, ?_, ?_, ?_, ?_, ?_, ?_, ?_, ?_, ?_, ?_, ?_, ?_, ?_,
    ?_, ?_, ?_, ?_, ?_, ?_, ?_, ?_, ?_, ?_, ?_, ?_⟩
  · intro e a; exact ofSelf_state_cf e _ (mapQuery_cf e _)
  · intro e v; exact hno e _ _
  · intro e a; exact ofNone_state_cf e _ (mapQuery_cf e _)
  · intro e a; exact ofSelf_state_cf e _ (mapQuery_cf e _)
  · intro e a; exact ofNone_state_cf e _ (newObjOp_cf e _ _)
  · intro e v
    unfold Expr.all
    split
    · rfl
    · exact hop _ _ _
  · exact hop
  · intro e v
    exact ofSelf_state_cf e _ (by
      intro e2 h
      split at h
      · exact absurd h (by simp)
      · exact mapNewObj_cf e _ e2 h)
  · intro e v
    exact ofSelf_state_cf e _ (by
      intro e2 h
      split at h
      · exact absurd h (by simp)
      · exact mapNewObj_cf e _ e2 h)
  · intro e v
    unfold Expr.bits_all_clear
    split
    · rfl
    · exact hop _ _ _
  · intro e v
    unfold Expr.bits_all_set
    split
    · rfl
    · exact hop _ _ _
  · intro e v
    unfold Expr.case_sensitive
    split
    · rfl
    · rfl
    · split
      · refine ofSelf_state_cf e _ ?_
        intro e2 h
        split at h
        · exact absurd h (by simp)
        · split at h
          · exact absurd h (by simp)
          · exact mapQuery_cf e _ e2 h
      · refine ofSelf_state_cf e _ ?_
        intro e2 h
        split at h
        · exact absurd h (by simp)
        · split at h
          · exact absurd h (by simp)
          · cases h; rfl
          · split at h
            · exact mapQuery_cf e _ e2 h
            · exact absurd h (by simp)
  · intro e v; exact ofSelf_state_cf e _ (mapQuery_cf e _)
  · intro e v
    unfold Expr.current_date
    split
    · rfl
    · refine ofSelf_state_cf e _ ?_
      intro e2 h
      split at h
      · exact absurd h (by simp)
      · exact mapNewObj_cf e _ e2 h
  · intro e v; exact hop _ _ _
  · intro e a; exact hop _ _ _
  · intro e v
    unfold Expr.equals
    split
    · exact ofSelf_state_cf e _ (mapQuery_cf e _)
    · rfl
  · intro e v; exact hop _ _ _
  · intro e v; exact hop _ _ _
  · intro e v; exact hop _ _ _
  · intro e v
    unfold Expr.is_in
    split
    · exact hop _ _ _
    · exact hop _ _ _
  · intro e v; exact hno e _ _
  · intro e v; exact hop _ _ _
  · intro e v; exact hop _ _ _
  · intro e v; exact hno e _ _
  · intro e v; exact hno e _ _
  · intro e v; exact hno e _ _
  · intro e a; exact hop _ _ _
  · intro e v; exact hop _ _ _
  · intro e v; exact hop _ _ _
  · intro e v
    unfold Expr.is_not_in
    split
    · exact hop _ _ _
    · exact hop _ _ _
  · intro e; exact hno e _ _
  · intro e; exact hno e _ _
  · intro e v; exact hop _ _ _
  · intro e a; exact hno e _ _
  · intro e v; exact hno e _ _
  · intro e a
    unfold Expr.push
    split
    · split
      · exact hno e _ _
      · rfl
    · exact hno e _ _
  · intro e v; exact hno e _ _
  · intro e a b
    exact andCall_cf e _ _ (hop _ _ _) (fun e2 => hop _ _ _)
  · intro e; exact hop _ _ _
  · intro e
    unfold Expr.is_null Expr.equals
    split
    · exact ofSelf_state_cf e _ (mapQuery_cf e _)
    · rfl
  · intro e v; exact hop _ _ _
  · intro e v; exact hno e _ _
  · intro e v at2
    unfold Expr.set
    split
    · rfl
    · split
      · exact ofSelf_state_cf e _ (mapNewObj_cf e _)
      · split
        · exact ofSelf_state_cf e _ (mapNewObj_cf e _)
        · exact ofSelf_state_cf e _ (mapNewObj_cf e _)
  · intro e v; exact hno e _ _
  · intro e v; exact hop _ _ _
  · intro e v; exact hop _ _ _
  · intro e fs
    unfold Expr.sort
    split
    · rfl
    · exact hop _ _ _
  · intro e v
    unfold Expr.is_type
    split
    · split
      · exact hop _ _ _
      · exact hop _ _ _
    · exact hop _ _ _
  · intro e; exact hno e _ _
  · intro e v; exact ofSelf_state_cf e _ (mapQuery_cf e _)
  · intro e f; exact ⟨rfl, rfl⟩

/-! Claim C10: failing mutation operators do not mutate the receiver. -/

/-- C10 (counterexample): the claim states that a mutation operator
failing with MissingFieldCursorError leaves the receiver exactly as it
was; but push evaluates value_or_expression.get_query().setdefault on the
each marker before the current-field check, and when the argument is the
receiving Expression itself that setdefault mutates the receiver's own
filter: push(self) on a fresh Expression changes the filter to the
each-default document and then raises. -/
theorem C10_counterexample :
    Expr.init.push_self =
      ⟨.error missingFieldError,
       ⟨.pydoc (.cons "$each" (.pylist .nil) .nil), .pydoc .nil, none⟩⟩ ∧
    ¬ (Expr.init.push_self).state = Expr.init := by
  decide

/-- C10 (amended): whenever a mutation operator fails with
MissingFieldCursorError, the receiving Expression's filter document,
mutation document and current-field cursor are all exactly as before the
call - with the single exception of push invoked with the receiving
Expression itself as its argument, where the receiver's filter first
gains the each-marker default (get_query().setdefault runs before the
cursor check on the receiver's own live filter dict) and the error is
raised only afterwards. -/
theorem C10_mutation_isolation :
    (∀ e (d : ValDoc), e.query = .pydoc d → e.activeField = none →
      Expr.push_self e =
        ⟨.error missingFieldError,
         { e with query := .pydoc (d.setdefault "$each" (.pylist .nil)) }⟩) ∧
    (∀ e v at2, (Expr.set e v at2).ret = .error missingFieldError →
      (Expr.set e v at2).state = e) ∧
    (∀ e, (Expr.unset_field e).ret = .error missingFieldError →
      (Expr.unset_field e).state = e) ∧
    (∀ e v, (Expr.inc e v).ret = .error missingFieldError → (Expr.inc e v).state = e) ∧
    (∀ e v, (Expr.mul e v).ret = .error missingFieldError → (Expr.mul e v).state = e) ∧
    (∀ e v, (Expr.min e v).ret = .error missingFieldError → (Expr.min e v).state = e) ∧
    (∀ e v, (Expr.max e v).ret = .error missingFieldError → (Expr.max e v).state = e) ∧
    (∀ e v, (Expr.rename e v).ret = .error missingFieldError → (Expr.rename e v).state = e) ∧
    (∀ e v, (Expr.set_on_insert e v).ret = .error missingFieldError →
      (Expr.set_on_insert e v).state = e) ∧
    (∀ e (a : Arg), (Expr.push e a).ret = .error missingFieldError →
      (Expr.push e a).state = e) ∧
    (∀ e (a : Arg), (Expr.pull e a).ret = .error missingFieldError →
      (Expr.pull e a).state = e) ∧
    (∀ e v, (Expr.pull_all e v).ret = .error missingFieldError →
      (Expr.pull_all e v).state = e) ∧
    (∀ e v, (Expr.push_all e v).ret = .error missingFieldError →
      (Expr.push_all e v).state = e) ∧
    (∀ e (a : Arg), (Expr.add_to_set e a).ret = .error missingFieldError →
      (Expr.add_to_set e a).state = e) ∧
    (∀ e v, (Expr.add_many_to_set e v).ret = .error missingFieldError →
      (Expr.add_many_to_set e v).state = e) ∧
    (∀ e, (Expr.pop_first e).ret = .error missingFieldError → (Expr.pop_first e).state = e) ∧
    (∀ e, (Expr.pop_last e).ret = .error missingFieldError → (Expr.pop_last e).state = e) ∧
    (∀ e v, (Expr.current_date e v).ret = .error missingFieldError →
      (Expr.current_date e v).state = e) ∧
    (∀ e v, (Expr.bit_and e v).ret = .error missingFieldError →
      (Expr.bit_and e v).state = e) ∧
    (∀ e v, (Expr.bit_or e v).ret = .error missingFieldError →
      (Expr.bit_or e v).state = e) := by
  refine ⟨?_, ?_, ?_, ?_, ?_, ?_, ?_, ?_, ?_, ?_, ?_, ?_, ?_, ?_, ?_, ?_, ?_, ?_, ?_, ?_⟩
  · intro e d hq hact
    unfold Expr.push_self
    simp only [hq, hact]
  · intro e v at2 h
    unfold Expr.set at h ⊢
    cases hact : e.activeField with
    | none => rfl
    | some f =>
      simp only [hact] at h
      dsimp only
      split at h
      · rename_i hc
        rw [if_pos hc]
        exact MRes.ofSelf_err e _ _ h
      · rename_i hc
        rw [if_neg hc]
        split at h
        · rename_i hc2
          rw [if_pos hc2]
          exact MRes.ofSelf_err e _ _ h
        · rename_i hc2
          rw [if_neg hc2]
          exact MRes.ofSelf_err e _ _ h
  · intro e h; exact MRes.ofSelf_err e _ _ h
  · intro e v h; exact MRes.ofSelf_err e _ _ h
  · intro e v h; exact MRes.ofSelf_err e _ _ h
  · intro e v h; exact MRes.ofSelf_err e _ _ h
  · intro e v h; exact MRes.ofSelf_err e _ _ h
  · intro e v h; exact MRes.ofSelf_err e _ _ h
  · intro e v h; exact MRes.ofSelf_err e _ _ h
  · intro e a h
    cases a with
    | val v => exact MRes.ofSelf_err e _ _ h
    | expr ex =>
      cases hq : ex.query with
      | pydoc d =>
        unfold Expr.push at h ⊢
        dsimp only at h ⊢
        rw [hq] at h ⊢
        exact MRes.ofSelf_err e _ _ h
      | pynone => unfold Expr.push; simp [hq]
      | pybool b => unfold Expr.push; simp [hq]
      | pyint n => unfold Expr.push; simp [hq]
      | pystr s => unfold Expr.push; simp [hq]
      | pylist xs => unfold Expr.push; simp [hq]
  · intro e a h; exact MRes.ofSelf_err e _ _ h
  · intro e v h; exact MRes.ofSelf_err e _ _ h
  · intro e v h; exact MRes.ofSelf_err e _ _ h
  · intro e a h; exact MRes.ofNone_err e _ _ h
  · intro e v h; exact MRes.ofSelf_err e _ _ h
  · intro e h; exact MRes.ofSelf_err e _ _ h
  · intro e h; exact MRes.ofSelf_err e _ _ h
  · intro e v h
    unfold Expr.current_date at h ⊢
    split at h
    · rename_i hc
      rw [if_pos hc]
    · rename_i hc
      rw [if_neg hc]
      exact MRes.ofSelf_err e _ _ h
  · intro e v h; exact MRes.ofSelf_err e _ _ h
  · intro e v h; exact MRes.ofSelf_err e _ _ h

/-- C10 (witness): inc(1) on a fresh Expression fails with
MissingFieldCursorError and leaves the fresh state intact, while
push(self) on a fresh Expression fails with the same error after mutating
the filter to the each-default document. -/
theorem C10_mutation_isolation_witness :
    (Expr.init.inc (.pyint 1)).state = Expr.init ∧
    Expr.init.push_self =
      ⟨.error missingFieldError,
       { Expr.init with query := .pydoc (ValDoc.nil.setdefault "$each" (.pylist .nil)) }⟩ :=
  ⟨C10_mutation_isolation.2.2.2.1 Expr.init (.pyint 1) (by decide),
   C10_mutation_isolation.1 Expr.init ValDoc.nil rfl rfl⟩

end MQB
